import Mathlib

set_option autoImplicit false

namespace FormService

/-- Errors returned by collaborators; Go error values are abstracted to their message. -/
abbrev Err := String

/-- Model of a Go value passed as an untyped column value (the any argument of repo.Update). -/
inductive GoVal where
  | bool (b : Bool)
  | str (s : String)
  deriving DecidableEq, Repr

/-- Question entity (src/internal/entity/form.go): owning form identifier, content, order number. -/
structure Question where
  formID : String
  content : String
  orderNumber : Nat
  deriving DecidableEq, Repr

/-- Form entity (src/internal/entity/form.go): identifier, title, description, closed flag,
questions, author, creation time. The uuid identifier is modelled by its string form. -/
structure Form where
  id : String
  title : String
  description : String
  closed : Bool
  questions : List Question
  author : String
  createdAt : Nat
  deriving DecidableEq, Repr

/-- Field map passed to Service.Update (the values any argument), modelled as column-value pairs. -/
abbrev FieldMap := List (String × GoVal)

/-- Payload argument of a cache write or of a publish call. The formID constructor models the
anonymous struct with a single FormID field published by DeleteForm. -/
inductive Payload where
  | form (f : Form)
  | question (q : Question)
  | values (m : FieldMap)
  | formID (id : String)
  deriving DecidableEq, Repr

/-- One call on a collaborator, as a mockable collaborator would record it; sleep records the
fixed delay the retry executor waits between attempts. -/
inductive Call where
  | repoCreateForm (f : Option Form)
  | repoCreateQuestion (q : Option Question)
  | repoUpdate (id : String) (field : String) (value : GoVal)
  | repoUpdateMany (id : String) (values : FieldMap)
  | repoGet (id : String)
  | repoDeleteForm (id : String)
  | repoDeleteQuestion (id : String) (orderNumber : Nat)
  | cacheAdd (key : String) (payload : Payload)
  | cacheRemove (key : String)
  | publish (payload : Payload) (eventName : String)
  | sleep (units : Nat)
  deriving DecidableEq, Repr

/-- Whether a call is a call on the cache gateway. -/
def Call.isCacheCall : Call → Bool
  | .cacheAdd _ _ => true
  | .cacheRemove _ => true
  | _ => false

/-- Whether a call is a call on the notification gateway. -/
def Call.isPublishCall : Call → Bool
  | .publish _ _ => true
  | _ => false

/-- Whether a call is a persistence read by identifier. -/
def Call.isRepoGetCall : Call → Bool
  | .repoGet _ => true
  | _ => false

/-- Modelled from the spec: the retry executor retrier.Do, whose source file is not under
src (only its call sites are). Per the spec it runs the operation up to retry times with a
fixed delay between attempts, stops at the first success, and otherwise surfaces the last
error. att i is the outcome of attempt i; every attempt is recorded as the call c, and the
inter-attempt delay is recorded as a sleep. -/
def retrierDoAux (delay : Nat) (att : Nat → Option Err) (c : Call) : Nat → Nat → Option Err × List Call
  | _, 0 => (none, [])
  | i, 1 => (att i, [c])
  | i, n + 2 =>
    match att i with
    | none => (none, [c])
    | some _ =>
      let r := retrierDoAux delay att c (i + 1) (n + 1)
      (r.1, c :: Call.sleep delay :: r.2)

/-- Modelled from the spec: entry point of the retry executor, attempts starting at index 0. -/
def retrierDo (retry delay : Nat) (att : Nat → Option Err) (c : Call) : Option Err × List Call :=
  retrierDoAux delay att c 0 retry

/-- Loop of retrier.Connect (src/pkg/retrier/connect.go): for range retry iterations the
connector runs; the loop stops at the first nil error, otherwise the last result is kept.
The second component counts how many times the connector was invoked. The inter-attempt
sleep is not observable here. -/
def connectLoop {T : Type} (connector : Nat → T × Option Err) : Nat → (T × Option Err) → Nat → (T × Option Err) × Nat
  | _, cur, 0 => (cur, 0)
  | i, _, n + 1 =>
    let r := connector i
    match r.2 with
    | none => ((r.1, none), 1)
    | some _ =>
      let rest := connectLoop connector (i + 1) r n
      (rest.1, rest.2 + 1)

/-- retrier.Connect (src/pkg/retrier/connect.go): zero is the Go zero value of the connection
type T (the declared var out T); the result pairs the returned (connection, error) with the
number of connector invocations. -/
def retrierConnect {T : Type} (retry : Nat) (zero : T) (connector : Nat → T × Option Err) : (T × Option Err) × Nat :=
  connectLoop connector 0 (zero, none) retry

/-- Redis key-value store modelled as an association list from keys to stored payloads. -/
abbrev Store := List (String × Payload)

/-- Redis SET: overwrite the value under key k. -/
def redisSet (st : Store) (k : String) (v : Payload) : Store :=
  (k, v) :: st.filter (fun p => p.1 != k)

/-- Redis DEL: remove the entry under key k. -/
def redisDel (st : Store) (k : String) : Store :=
  st.filter (fun p => p.1 != k)

/-- Redis GET: look up the value under key k. -/
def redisGet (st : Store) (k : String) : Option Payload :=
  (st.find? (fun p => p.1 == k)).map (fun p => p.2)

/-- AddToCash (src/pkg/transport/casher/casher.go): stores the payload with no expiration
under fmt.Sprintf(FORM_KEY_TEMPLATE, key), that is under the key "form:" ++ key. -/
def Casher.AddToCash (st : Store) (key : String) (payload : Payload) : Store :=
  redisSet st ("form:" ++ key) payload

/-- RemoveFromCash (src/pkg/transport/casher/casher.go): deletes the raw key, with no
FORM_KEY_TEMPLATE formatting, and always returns a nil error (a redis error is only logged),
so only the deletion effect is modelled. -/
def Casher.RemoveFromCash (st : Store) (key : String) : Store :=
  redisDel st key

/-- Model of the external uuid.Parse collaborator (github.com/google/uuid): acceptance is
abstracted to the canonical 36-character representation and the parsed value is identified
with its string form; no claim depends on the precise format. -/
def uuidParse (s : String) : Option String :=
  if s.length = 36 then some s else none

/-- Service (src/internal/service/form_service.go) with its three collaborators modelled as
mock behaviors: each field gives the outcome of one collaborator operation, indexed for the
retried operations by the attempt number within one mutation; none is a nil Go error. -/
structure Service where
  repoCreateForm : Option Form → Option Err
  repoCreateQuestion : Option Question → Option Err
  repoUpdate : String → String → GoVal → Option Err
  repoUpdateMany : String → FieldMap → Option Err
  repoGet : String → Except Err Form
  repoDeleteForm : String → Option Err
  repoDeleteQuestion : String → Nat → Option Err
  cacheAdd : Nat → Option Err
  cacheRemove : Nat → Option Err
  publish : Nat → Option Err

/-- Observable outcome of one mutation: the returned error, the calls made on the calling
goroutine in program order, the calls made by the spawned background goroutine, the value
that goroutine sends on its buffered result channel, whether the operation received from
that channel before returning, and whether execution dereferenced a nil pointer (a process
fault, after which the remaining effects are not modelled). -/
structure OpResult where
  ret : Option Err
  syncCalls : List Call
  asyncCalls : List Call
  asyncResult : Option Err
  awaitedAsync : Bool
  crashed : Bool
  deriving DecidableEq, Repr

/-- CreateForm (form_service.go lines 54-78): persist the form; then concurrently cache it
under key form.ID.String() through the retry executor while publishing form.created once,
directly and unretried; a publish error is returned without receiving from the cache task
channel, otherwise the cache task result is received and returned. There is no nil check: a
nil form goes straight to repo.Create, and if that succeeds the cache goroutine dereferences
the nil pointer. -/
def Service.CreateForm (s : Service) (form : Option Form) : OpResult :=
  match s.repoCreateForm form with
  | some e => ⟨some e, [Call.repoCreateForm form], [], none, false, false⟩
  | none =>
    match form with
    | none => ⟨none, [Call.repoCreateForm form], [], none, false, true⟩
    | some f =>
      let cache := retrierDo 3 5 s.cacheAdd (Call.cacheAdd f.id (Payload.form f))
      match s.publish 0 with
      | some e =>
        ⟨some e, [Call.repoCreateForm form, Call.publish (Payload.form f) "form.created"],
          cache.2, cache.1, false, false⟩
      | none =>
        ⟨cache.1, [Call.repoCreateForm form, Call.publish (Payload.form f) "form.created"],
          cache.2, cache.1, true, false⟩

/-- CreateQuestion (form_service.go lines 92-120): persist the question, re-read the form by
question.FormID, then publish form.updated in a background goroutine (retried) while caching
the re-read form synchronously (retried); a cache failure is returned without receiving the
publish task result, otherwise the publish task result is received and returned. No nil
check: a nil question reaches repo.Create, and question.FormID is dereferenced after a
successful create. -/
def Service.CreateQuestion (s : Service) (question : Option Question) : OpResult :=
  match s.repoCreateQuestion question with
  | some e => ⟨some e, [Call.repoCreateQuestion question], [], none, false, false⟩
  | none =>
    match question with
    | none => ⟨none, [Call.repoCreateQuestion question], [], none, false, true⟩
    | some q =>
      match s.repoGet q.formID with
      | Except.error e =>
        ⟨some e, [Call.repoCreateQuestion question, Call.repoGet q.formID], [], none, false, false⟩
      | Except.ok form =>
        let pub := retrierDo 3 5 s.publish (Call.publish (Payload.form form) "form.updated")
        let cache := retrierDo 3 5 s.cacheAdd (Call.cacheAdd form.id (Payload.form form))
        match cache.1 with
        | some e =>
          ⟨some e, [Call.repoCreateQuestion question, Call.repoGet q.formID] ++ cache.2,
            pub.2, pub.1, false, false⟩
        | none =>
          ⟨pub.1, [Call.repoCreateQuestion question, Call.repoGet q.formID] ++ cache.2,
            pub.2, pub.1, true, false⟩

/-- UpdateStatus (form_service.go lines 135-172): parse the identifier, update the Closed
column, re-read the form, then cache the re-read form in a background goroutine (retried,
keyed by the original form_id string) while publishing the event name form.created (retried)
synchronously; a publish error is returned without receiving from the cache task channel,
otherwise the cache task result is received and returned. -/
def Service.UpdateStatus (s : Service) (form_id : String) (closed : Bool) : OpResult :=
  match uuidParse form_id with
  | none => ⟨some "invalid UUID", [], [], none, false, false⟩
  | some uid =>
    match s.repoUpdate uid "Closed" (GoVal.bool closed) with
    | some e =>
      ⟨some e, [Call.repoUpdate uid "Closed" (GoVal.bool closed)], [], none, false, false⟩
    | none =>
      match s.repoGet uid with
      | Except.error e =>
        ⟨some e, [Call.repoUpdate uid "Closed" (GoVal.bool closed), Call.repoGet uid],
          [], none, false, false⟩
      | Except.ok form =>
        let cache := retrierDo 3 5 s.cacheAdd (Call.cacheAdd form_id (Payload.form form))
        let pub := retrierDo 3 5 s.publish (Call.publish (Payload.form form) "form.created")
        match pub.1 with
        | some e =>
          ⟨some e, [Call.repoUpdate uid "Closed" (GoVal.bool closed), Call.repoGet uid] ++ pub.2,
            cache.2, cache.1, false, false⟩
        | none =>
          ⟨cache.1, [Call.repoUpdate uid "Closed" (GoVal.bool closed), Call.repoGet uid] ++ pub.2,
            cache.2, cache.1, true, false⟩

/-- Update (form_service.go lines 186-209): update many columns at once, then cache the raw
values argument in a background goroutine (retried, keyed by formID.String()) while
publishing the raw values argument with event name form.updated (retried) synchronously; the
form is never re-read. A publish error is returned without receiving from the cache task
channel, otherwise the cache task result is received and returned. -/
def Service.Update (s : Service) (formID : String) (values : FieldMap) : OpResult :=
  match s.repoUpdateMany formID values with
  | some e => ⟨some e, [Call.repoUpdateMany formID values], [], none, false, false⟩
  | none =>
    let cache := retrierDo 3 5 s.cacheAdd (Call.cacheAdd formID (Payload.values values))
    let pub := retrierDo 3 5 s.publish (Call.publish (Payload.values values) "form.updated")
    match pub.1 with
    | some e =>
      ⟨some e, [Call.repoUpdateMany formID values] ++ pub.2, cache.2, cache.1, false, false⟩
    | none =>
      ⟨cache.1, [Call.repoUpdateMany formID values] ++ pub.2, cache.2, cache.1, true, false⟩

/-- UpdateDescription (form_service.go lines 224-257): parse the identifier, update the
Description column, re-read the form, cache the re-read form in a background goroutine
(retried) while publishing form.updated (retried) synchronously; a publish error is returned
without receiving from the cache task channel, and on publish success the function returns
nil immediately, never receiving the cache task result. -/
def Service.UpdateDescription (s : Service) (formId : String) (desc : String) : OpResult :=
  match uuidParse formId with
  | none => ⟨some "invalid UUID", [], [], none, false, false⟩
  | some uid =>
    match s.repoUpdate uid "Description" (GoVal.str desc) with
    | some e =>
      ⟨some e, [Call.repoUpdate uid "Description" (GoVal.str desc)], [], none, false, false⟩
    | none =>
      match s.repoGet uid with
      | Except.error e =>
        ⟨some e, [Call.repoUpdate uid "Description" (GoVal.str desc), Call.repoGet uid],
          [], none, false, false⟩
      | Except.ok form =>
        let cache := retrierDo 3 5 s.cacheAdd (Call.cacheAdd formId (Payload.form form))
        let pub := retrierDo 3 5 s.publish (Call.publish (Payload.form form) "form.updated")
        match pub.1 with
        | some e =>
          ⟨some e, [Call.repoUpdate uid "Description" (GoVal.str desc), Call.repoGet uid] ++ pub.2,
            cache.2, cache.1, false, false⟩
        | none =>
          ⟨none, [Call.repoUpdate uid "Description" (GoVal.str desc), Call.repoGet uid] ++ pub.2,
            cache.2, cache.1, false, false⟩

/-- DeleteForm (form_service.go lines 270-302): parse the identifier, delete the form, then
remove the cache entry in a background goroutine (retried, passing the raw formId string as
key) while publishing a minimal FormID payload with event name form.deleted (retried)
synchronously; a publish error is returned without receiving from the cache task channel,
otherwise the cache task result is received and returned. -/
def Service.DeleteForm (s : Service) (formId : String) : OpResult :=
  match uuidParse formId with
  | none => ⟨some "invalid UUID", [], [], none, false, false⟩
  | some uid =>
    match s.repoDeleteForm uid with
    | some e => ⟨some e, [Call.repoDeleteForm uid], [], none, false, false⟩
    | none =>
      let cache := retrierDo 3 5 s.cacheRemove (Call.cacheRemove formId)
      let pub := retrierDo 3 5 s.publish (Call.publish (Payload.formID formId) "form.deleted")
      match pub.1 with
      | some e =>
        ⟨some e, [Call.repoDeleteForm uid] ++ pub.2, cache.2, cache.1, false, false⟩
      | none =>
        ⟨cache.1, [Call.repoDeleteForm uid] ++ pub.2, cache.2, cache.1, true, false⟩

/-- DeleteQuestion (form_service.go lines 317-347): parse the identifier, delete the
question, re-read the form, cache the re-read form in a background goroutine (retried) while
publishing form.updated once, directly and unretried; a publish error is returned without
receiving from the cache task channel, otherwise the cache task result is received and
returned. -/
def Service.DeleteQuestion (s : Service) (formId : String) (orderNumber : Nat) : OpResult :=
  match uuidParse formId with
  | none => ⟨some "invalid UUID", [], [], none, false, false⟩
  | some uid =>
    match s.repoDeleteQuestion uid orderNumber with
    | some e => ⟨some e, [Call.repoDeleteQuestion uid orderNumber], [], none, false, false⟩
    | none =>
      match s.repoGet uid with
      | Except.error e =>
        ⟨some e, [Call.repoDeleteQuestion uid orderNumber, Call.repoGet uid],
          [], none, false, false⟩
      | Except.ok form =>
        let cache := retrierDo 3 5 s.cacheAdd (Call.cacheAdd formId (Payload.form form))
        match s.publish 0 with
        | some e =>
          ⟨some e, [Call.repoDeleteQuestion uid orderNumber, Call.repoGet uid,
            Call.publish (Payload.form form) "form.updated"], cache.2, cache.1, false, false⟩
        | none =>
          ⟨cache.1, [Call.repoDeleteQuestion uid orderNumber, Call.repoGet uid,
            Call.publish (Payload.form form) "form.updated"], cache.2, cache.1, true, false⟩

/-- Number of cache-gateway calls observable in one mutation, goroutine included. -/
def cacheCallCount (r : OpResult) : Nat :=
  ((r.syncCalls ++ r.asyncCalls).filter Call.isCacheCall).length

/-- Number of notification-gateway calls observable in one mutation, goroutine included. -/
def publishCallCount (r : OpResult) : Nat :=
  ((r.syncCalls ++ r.asyncCalls).filter Call.isPublishCall).length

/-- Number of persistence reads observable in one mutation, goroutine included. -/
def repoGetCallCount (r : OpResult) : Nat :=
  ((r.syncCalls ++ r.asyncCalls).filter Call.isRepoGetCall).length

/-- Envelope (src/internal/entity/event.go): identifier, opaque payload bytes, routing type,
timestamp. -/
structure Event where
  id : String
  payload : String
  type : String
  timestamp : Nat
  deriving DecidableEq, Repr

/-- Bounded delivery channel from the Consumption Engine to the Dispatcher: a capacity and
the buffered events. -/
structure BChan where
  cap : Nat
  buf : List Event
  deriving DecidableEq, Repr

/-- Whether a send on the channel would find it at capacity. -/
def BChan.isFull (q : BChan) : Bool :=
  q.cap ≤ q.buf.length

/-- One broker-client operation issued by the consumer, as a broker mock would record it. -/
inductive BrokerOp where
  | exchangeDeclare (name : String)
  | queueDeclare (name : String)
  | queueBind (queue routingKey exchange : String)
  | dial
  | chanOpen
  | chanClose
  deriving DecidableEq, Repr

/-- Consumer (src/pkg/consumer/consumer.go): its tracked-exchange registry, the only state
the reconnect path iterates; connection and channel handles stay abstract and broker
interactions are recorded as operations. -/
structure Consumer1 where
  exchanges : List String
  deriving DecidableEq, Repr

/-- Init (consumer.go lines 22-51): opens a channel and declares the configured request
exchange; the exchanges registry starts empty, and the declared exchange is not added to it. -/
def Consumer1.init (requestExchange : String) : Consumer1 × List BrokerOp :=
  (⟨[]⟩, [BrokerOp.chanOpen, BrokerOp.exchangeDeclare requestExchange])

/-- Subscribe (consumer.go lines 53-75): declares the queue and binds it to the exchange
under the routing key; the exchanges registry is left unchanged, since no statement in the
function writes to it. -/
def Consumer1.Subscribe (c : Consumer1) (queueName exchange routingKey : String) :
    Consumer1 × List BrokerOp :=
  (c, [BrokerOp.queueDeclare queueName, BrokerOp.queueBind queueName routingKey exchange])

/-- Reconnect (consumer.go lines 156-192), success path of dial and channel open: closes the
old channel, dials, opens a channel, and redeclares exactly the exchanges present in the
registry (a declare error is only logged). -/
def Consumer1.reconnect (c : Consumer1) : Consumer1 × List BrokerOp :=
  (c, [BrokerOp.chanClose, BrokerOp.dial, BrokerOp.chanOpen] ++
    c.exchanges.map BrokerOp.exchangeDeclare)

/-- Outcome of the inner delivery loop of ConsumeMessages (consumer.go lines 134-149): the
loop either drains all raw messages, counting the ones skipped on decode failure, or halts
blocked on the send into a full output channel, since outputChan <- event has no default
branch and no drop path. -/
inductive LoopOutcome where
  | finished (q : BChan) (skippedDecode : Nat)
  | blockedOnSend (ev : Event) (q : BChan) (remaining : List (Option Event))
  deriving DecidableEq, Repr

/-- Inner delivery loop of ConsumeMessages (consumer.go lines 134-149). Raw messages are
given with their decode result: none is a json.Unmarshal failure, which is logged and the
message skipped; a decoded event is forwarded with a blocking channel send, modelled as
halting the loop when the channel is full. -/
def Consumer1.deliverLoop : List (Option Event) → BChan → LoopOutcome
  | [], q => LoopOutcome.finished q 0
  | none :: ms, q =>
    match Consumer1.deliverLoop ms q with
    | LoopOutcome.finished qf k => LoopOutcome.finished qf (k + 1)
    | r => r
  | some e :: ms, q =>
    if q.isFull then LoopOutcome.blockedOnSend e q ms
    else Consumer1.deliverLoop ms ⟨q.cap, q.buf ++ [e]⟩

/-- processMessage of the second consumer implementation (the variant embedded in
src/pkg/transport/casher/casher.go, lines 436-459): decode, then a select with a default
branch; when the output channel has room the event is delivered and nil returned, otherwise
a warning is logged, the message is dropped, and an output-channel-is-full error returned. -/
def Consumer2.processMessage (decoded : Option Event) (q : BChan) : BChan × Option Err :=
  match decoded with
  | none => (q, some "failed to unmarshal message")
  | some e =>
    if q.isFull then (q, some "output channel is full")
    else (⟨q.cap, q.buf ++ [e]⟩, none)

/-- Message loop of startConsuming in the second consumer implementation (casher.go lines
425-430): every message is processed in order; a processMessage error is logged and the loop
continues. Returns the final channel state and one result per message. -/
def Consumer2.deliverLoop : List (Option Event) → BChan → BChan × List (Option Err)
  | [], q => (q, [])
  | m :: ms, q =>
    let r := Consumer2.processMessage m q
    let rest := Consumer2.deliverLoop ms r.1
    (rest.1, r.2 :: rest.2)

/-- Canonical 36-character uuid string used as a concrete form identifier. -/
def uuid0 : String := "00000000-0000-0000-0000-000000000000"

/-- Concrete form fixture. -/
def formW : Form := ⟨"f1", "T", "D", false, [], "A", 0⟩

/-- Concrete field map fixture for the update-fields mutation. -/
def valsW : FieldMap := [("Title", GoVal.str "Updated Title")]

/-- Service whose collaborators all succeed and whose persistence reads return formW. -/
def svcOK : Service :=
  ⟨fun _ => none, fun _ => none, fun _ _ _ => none, fun _ _ => none,
    fun _ => Except.ok formW, fun _ => none, fun _ _ => none,
    fun _ => none, fun _ => none, fun _ => none⟩

/-- Service whose persistence operations all fail with a db error while the cache and
notification gateways would succeed. -/
def svcRepoFail : Service :=
  ⟨fun _ => some "db", fun _ => some "db", fun _ _ _ => some "db", fun _ _ => some "db",
    fun _ => Except.error "db", fun _ => some "db", fun _ _ => some "db",
    fun _ => none, fun _ => none, fun _ => none⟩

/-- Service whose cache gateway fails on every attempt while everything else succeeds. -/
def svcCacheFail : Service :=
  ⟨fun _ => none, fun _ => none, fun _ _ _ => none, fun _ _ => none,
    fun _ => Except.ok formW, fun _ => none, fun _ _ => none,
    fun _ => some "cache down", fun _ => some "cache down", fun _ => none⟩

/-- Service whose notification gateway fails on every attempt while everything else
succeeds. -/
def svcPubFail : Service :=
  ⟨fun _ => none, fun _ => none, fun _ _ _ => none, fun _ _ => none,
    fun _ => Except.ok formW, fun _ => none, fun _ _ => none,
    fun _ => none, fun _ => none, fun _ => some "amqp down"⟩

/-- Service whose create operations fail exactly on a nil input, as a database driver does
when handed a nil model; everything else succeeds. -/
def svcNilCreateErr : Service :=
  ⟨fun f => match f with | none => some "nil model" | some _ => none,
    fun q => match q with | none => some "nil model" | some _ => none,
    fun _ _ _ => none, fun _ _ => none, fun _ => Except.ok formW,
    fun _ => none, fun _ _ => none, fun _ => none, fun _ => none, fun _ => none⟩

/-- Concrete envelope fixtures. -/
def evA : Event := ⟨"e1", "p1", "creation", 0⟩

/-- Second concrete envelope fixture, distinct from evA. -/
def evB : Event := ⟨"e2", "p2", "update", 0⟩

/-- C10: retrier.Connect called with retry = 0 runs its loop zero times, so it returns the
zero value of the connection type together with a nil error without ever invoking the
connector: it reports success although no connection attempt was made. -/
theorem c10_connect_zero_retry {T : Type} (zero : T) (connector : Nat → T × Option Err) :
    retrierConnect 0 zero connector = ((zero, none), 0) := rfl

/-- C9: evaluation at the failing input: the mutation-side cache write stores the serialized
form under the key "form:" ++ formId, and delete-form passes the raw formId to
RemoveFromCash, which deletes the raw key, so the cached entry under "form:" ++ formId
survives the removal. -/
theorem c9_remove_misses_prefixed_key :
    redisGet (Casher.AddToCash [] "f1" (Payload.form formW)) "form:f1" =
        some (Payload.form formW) ∧
      redisGet (Casher.RemoveFromCash (Casher.AddToCash [] "f1" (Payload.form formW)) "f1")
          "form:f1" = some (Payload.form formW) ∧
      (svcOK.DeleteForm uuid0).asyncCalls = [Call.cacheRemove uuid0] ∧
      (svcOK.DeleteForm uuid0).ret = none := by
  decide

/-- C7: evaluation at the failing input: a nil input to either create operation is not
rejected up front; the persistence gateway is invoked with the nil value (one recorded
collaborator call) and its error is what the operation returns, not a pre-persistence
invalid-argument validation error. -/
theorem c7_nil_reaches_persistence :
    (svcNilCreateErr.CreateForm none).syncCalls = [Call.repoCreateForm none] ∧
      (svcNilCreateErr.CreateForm none).ret = some "nil model" ∧
      (svcNilCreateErr.CreateQuestion none).syncCalls = [Call.repoCreateQuestion none] ∧
      (svcNilCreateErr.CreateQuestion none).ret = some "nil model" := by
  decide

/-- C5: evaluation: a fully successful update-status mutation publishes exactly one
notification and its event name is form.created; no form.updated notification occurs
anywhere in the mutation. -/
theorem c5_updatestatus_publishes_created :
    (svcOK.UpdateStatus uuid0 true).ret = none ∧
      (svcOK.UpdateStatus uuid0 true).syncCalls =
        [Call.repoUpdate uuid0 "Closed" (GoVal.bool true), Call.repoGet uuid0,
          Call.publish (Payload.form formW) "form.created"] ∧
      ((svcOK.UpdateStatus uuid0 true).asyncCalls.filter Call.isPublishCall) = [] := by
  decide

/-- C2: evaluation at the failing input: the update-fields mutation succeeds with zero
persistence reads, so no re-read happens, and the value cached as well as the payload
published are the raw field map rather than a re-read Form. -/
theorem c2_update_skips_reread :
    (svcOK.Update uuid0 valsW).ret = none ∧
      repoGetCallCount (svcOK.Update uuid0 valsW) = 0 ∧
      (svcOK.Update uuid0 valsW).asyncCalls = [Call.cacheAdd uuid0 (Payload.values valsW)] ∧
      (svcOK.Update uuid0 valsW).syncCalls =
        [Call.repoUpdateMany uuid0 valsW, Call.publish (Payload.values valsW) "form.updated"] := by
  decide

/-- C4: evaluation at the failing input: after Subscribe sets up queue and binding for
exchange ex1, the tracked-exchange registry is still empty, so a reconnect after a
connection drop redeclares no exchange at all; in particular ex1 is not redeclared before
consumption resumes. -/
theorem c4_reconnect_loses_subscribed_exchange :
    (((Consumer1.init "request").1.Subscribe "que" "ex1" "rk").1).exchanges = [] ∧
      ((((Consumer1.init "request").1.Subscribe "que" "ex1" "rk").1).reconnect).2 =
        [BrokerOp.chanClose, BrokerOp.dial, BrokerOp.chanOpen] ∧
      (((((Consumer1.init "request").1.Subscribe "que" "ex1" "rk").1).reconnect).2.filter
        (fun op => op == BrokerOp.exchangeDeclare "ex1")) = [] := by
  decide

/-- C8 counterexample: in the ConsumeMessages loop of src/pkg/consumer/consumer.go the send
of a decoded envelope into a full delivery queue blocks instead of dropping: with capacity 1
already holding one event, the loop halts blocked on the send, the envelope is neither
dropped nor delivered, and the loop does not continue. -/
theorem c8_consumer1_blocks_when_full :
    Consumer1.deliverLoop [some evA] ⟨1, [evB]⟩ =
      LoopOutcome.blockedOnSend evA ⟨1, [evB]⟩ [] := by
  decide

/-- C3 counterexample: update-description with a cache task failing all three attempts and a
publisher that succeeds returns success without receiving the cache task result: the
operation neither waits for the cache task nor returns its exhausted-retries error, although
the claim requires the cache-task error to be returned. -/
theorem c3_updatedescription_drops_cache_error :
    (svcCacheFail.UpdateDescription uuid0 "d").ret = none ∧
      (svcCacheFail.UpdateDescription uuid0 "d").asyncResult = some "cache down" ∧
      (svcCacheFail.UpdateDescription uuid0 "d").awaitedAsync = false := by
  decide

/-- C6 counterexample: in create-form the notification publish is invoked directly rather
than through the retry executor: with a persistently failing publisher exactly one publish
call is recorded, not the three attempts the claimed retry wrapping would produce, and the
operation returns the publish error. -/
theorem c6_createform_publish_not_retried :
    publishCallCount (svcPubFail.CreateForm (some formW)) = 1 ∧
      (svcPubFail.CreateForm (some formW)).ret = some "amqp down" := by
  decide

/-- C1: for every mutation, when the critical-phase persistence call fails, the operation
returns exactly that persistence error, and zero calls are recorded on the cache and
notification gateways (no propagation task is even started). -/
theorem c1_persistence_failure_aborts (s : Service) (e : Err) :
    (∀ f, s.repoCreateForm f = some e →
      (s.CreateForm f).ret = some e ∧ cacheCallCount (s.CreateForm f) = 0 ∧
        publishCallCount (s.CreateForm f) = 0) ∧
    (∀ q, s.repoCreateQuestion q = some e →
      (s.CreateQuestion q).ret = some e ∧ cacheCallCount (s.CreateQuestion q) = 0 ∧
        publishCallCount (s.CreateQuestion q) = 0) ∧
    (∀ fid uid c, uuidParse fid = some uid → s.repoUpdate uid "Closed" (GoVal.bool c) = some e →
      (s.UpdateStatus fid c).ret = some e ∧ cacheCallCount (s.UpdateStatus fid c) = 0 ∧
        publishCallCount (s.UpdateStatus fid c) = 0) ∧
    (∀ fid vs, s.repoUpdateMany fid vs = some e →
      (s.Update fid vs).ret = some e ∧ cacheCallCount (s.Update fid vs) = 0 ∧
        publishCallCount (s.Update fid vs) = 0) ∧
    (∀ fid uid d, uuidParse fid = some uid →
      s.repoUpdate uid "Description" (GoVal.str d) = some e →
      (s.UpdateDescription fid d).ret = some e ∧ cacheCallCount (s.UpdateDescription fid d) = 0 ∧
        publishCallCount (s.UpdateDescription fid d) = 0) ∧
    (∀ fid uid, uuidParse fid = some uid → s.repoDeleteForm uid = some e →
      (s.DeleteForm fid).ret = some e ∧ cacheCallCount (s.DeleteForm fid) = 0 ∧
        publishCallCount (s.DeleteForm fid) = 0) ∧
    (∀ fid uid n, uuidParse fid = some uid → s.repoDeleteQuestion uid n = some e →
      (s.DeleteQuestion fid n).ret = some e ∧ cacheCallCount (s.DeleteQuestion fid n) = 0 ∧
        publishCallCount (s.DeleteQuestion fid n) = 0) := by
  refine ⟨?_, ?_, ?_, ?_, ?_, ?_, ?_⟩ <;> intros <;>
    simp_all [Service.CreateForm, Service.CreateQuestion, Service.UpdateStatus,
      Service.Update, Service.UpdateDescription, Service.DeleteForm, Service.DeleteQuestion,
      cacheCallCount, publishCallCount, Call.isCacheCall, Call.isPublishCall]

/-- Witness for C1 at a service whose persistence operations all fail with a db error: every
mutation returns that error. -/
theorem c1_witness :
    (svcRepoFail.CreateForm (some formW)).ret = some "db" ∧
      (svcRepoFail.CreateQuestion none).ret = some "db" ∧
      (svcRepoFail.UpdateStatus uuid0 true).ret = some "db" ∧
      (svcRepoFail.Update uuid0 valsW).ret = some "db" ∧
      (svcRepoFail.UpdateDescription uuid0 "d").ret = some "db" ∧
      (svcRepoFail.DeleteForm uuid0).ret = some "db" ∧
      (svcRepoFail.DeleteQuestion uuid0 1).ret = some "db" := by
  have h := c1_persistence_failure_aborts svcRepoFail "db"
  exact ⟨(h.1 (some formW) rfl).1, (h.2.1 none rfl).1,
    (h.2.2.1 uuid0 uuid0 true (by decide) rfl).1, (h.2.2.2.1 uuid0 valsW rfl).1,
    (h.2.2.2.2.1 uuid0 uuid0 "d" (by decide) rfl).1,
    (h.2.2.2.2.2.1 uuid0 uuid0 (by decide) rfl).1,
    (h.2.2.2.2.2.2 uuid0 uuid0 1 (by decide) rfl).1⟩

/-- First-error preference: the result of the synchronously executed task preempts the
background task result. -/
def firstErr (a b : Option Err) : Option Err :=
  match a with
  | some e => some e
  | none => b

/-- C3 amended: each mutation runs one propagation task in a background goroutine and the
other synchronously; a failure of the synchronous task (the publish step everywhere except
create-question, where it is the cache step) is returned immediately without receiving the
background task result; when the synchronous task succeeds the operation receives and
returns the background result, except update-description, which returns success without
waiting, silently discarding a cache-task failure. -/
theorem c3_amended (s : Service) :
    (∀ f, s.repoCreateForm (some f) = none →
      (s.CreateForm (some f)).ret =
        firstErr (s.publish 0) (s.CreateForm (some f)).asyncResult ∧
      (s.CreateForm (some f)).awaitedAsync = (s.publish 0).isNone ∧
      (s.CreateForm (some f)).asyncResult =
        (retrierDo 3 5 s.cacheAdd (Call.cacheAdd f.id (Payload.form f))).1) ∧
    (∀ q fm, s.repoCreateQuestion (some q) = none → s.repoGet q.formID = Except.ok fm →
      (s.CreateQuestion (some q)).ret =
        firstErr (retrierDo 3 5 s.cacheAdd (Call.cacheAdd fm.id (Payload.form fm))).1
          (s.CreateQuestion (some q)).asyncResult ∧
      (s.CreateQuestion (some q)).awaitedAsync =
        ((retrierDo 3 5 s.cacheAdd (Call.cacheAdd fm.id (Payload.form fm))).1).isNone ∧
      (s.CreateQuestion (some q)).asyncResult =
        (retrierDo 3 5 s.publish (Call.publish (Payload.form fm) "form.updated")).1) ∧
    (∀ fid uid c fm, uuidParse fid = some uid →
      s.repoUpdate uid "Closed" (GoVal.bool c) = none → s.repoGet uid = Except.ok fm →
      (s.UpdateStatus fid c).ret =
        firstErr (retrierDo 3 5 s.publish (Call.publish (Payload.form fm) "form.created")).1
          (s.UpdateStatus fid c).asyncResult ∧
      (s.UpdateStatus fid c).awaitedAsync =
        ((retrierDo 3 5 s.publish (Call.publish (Payload.form fm) "form.created")).1).isNone ∧
      (s.UpdateStatus fid c).asyncResult =
        (retrierDo 3 5 s.cacheAdd (Call.cacheAdd fid (Payload.form fm))).1) ∧
    (∀ fid vs, s.repoUpdateMany fid vs = none →
      (s.Update fid vs).ret =
        firstErr (retrierDo 3 5 s.publish (Call.publish (Payload.values vs) "form.updated")).1
          (s.Update fid vs).asyncResult ∧
      (s.Update fid vs).awaitedAsync =
        ((retrierDo 3 5 s.publish (Call.publish (Payload.values vs) "form.updated")).1).isNone ∧
      (s.Update fid vs).asyncResult =
        (retrierDo 3 5 s.cacheAdd (Call.cacheAdd fid (Payload.values vs))).1) ∧
    (∀ fid uid d fm, uuidParse fid = some uid →
      s.repoUpdate uid "Description" (GoVal.str d) = none → s.repoGet uid = Except.ok fm →
      (s.UpdateDescription fid d).ret =
        firstErr (retrierDo 3 5 s.publish (Call.publish (Payload.form fm) "form.updated")).1
          none ∧
      (s.UpdateDescription fid d).awaitedAsync = false ∧
      (s.UpdateDescription fid d).asyncResult =
        (retrierDo 3 5 s.cacheAdd (Call.cacheAdd fid (Payload.form fm))).1) ∧
    (∀ fid uid, uuidParse fid = some uid → s.repoDeleteForm uid = none →
      (s.DeleteForm fid).ret =
        firstErr (retrierDo 3 5 s.publish (Call.publish (Payload.formID fid) "form.deleted")).1
          (s.DeleteForm fid).asyncResult ∧
      (s.DeleteForm fid).awaitedAsync =
        ((retrierDo 3 5 s.publish (Call.publish (Payload.formID fid) "form.deleted")).1).isNone ∧
      (s.DeleteForm fid).asyncResult =
        (retrierDo 3 5 s.cacheRemove (Call.cacheRemove fid)).1) ∧
    (∀ fid uid n fm, uuidParse fid = some uid → s.repoDeleteQuestion uid n = none →
      s.repoGet uid = Except.ok fm →
      (s.DeleteQuestion fid n).ret =
        firstErr (s.publish 0) (s.DeleteQuestion fid n).asyncResult ∧
      (s.DeleteQuestion fid n).awaitedAsync = (s.publish 0).isNone ∧
      (s.DeleteQuestion fid n).asyncResult =
        (retrierDo 3 5 s.cacheAdd (Call.cacheAdd fid (Payload.form fm))).1) := by
  refine ⟨?_, ?_, ?_, ?_, ?_, ?_, ?_⟩
  · intro f h
    cases hp : s.publish 0 <;>
      simp [Service.CreateForm, h, hp, firstErr]
  · intro q fm h hg
    cases hc : (retrierDo 3 5 s.cacheAdd (Call.cacheAdd fm.id (Payload.form fm))).1 <;>
      simp [Service.CreateQuestion, h, hg, hc, firstErr]
  · intro fid uid c fm hu h hg
    cases hp : (retrierDo 3 5 s.publish (Call.publish (Payload.form fm) "form.created")).1 <;>
      simp [Service.UpdateStatus, hu, h, hg, hp, firstErr]
  · intro fid vs h
    cases hp : (retrierDo 3 5 s.publish (Call.publish (Payload.values vs) "form.updated")).1 <;>
      simp [Service.Update, h, hp, firstErr]
  · intro fid uid d fm hu h hg
    cases hp : (retrierDo 3 5 s.publish (Call.publish (Payload.form fm) "form.updated")).1 <;>
      simp [Service.UpdateDescription, hu, h, hg, hp, firstErr]
  · intro fid uid hu h
    cases hp : (retrierDo 3 5 s.publish (Call.publish (Payload.formID fid) "form.deleted")).1 <;>
      simp [Service.DeleteForm, hu, h, hp, firstErr]
  · intro fid uid n fm hu h hg
    cases hp : s.publish 0 <;>
      simp [Service.DeleteQuestion, hu, h, hg, hp, firstErr]

/-- Witness for the amended C3 at a service whose cache fails persistently: the
update-description mutation does not wait for its cache task. -/
theorem c3_amended_witness :
    (svcCacheFail.UpdateDescription uuid0 "dd").awaitedAsync = false :=
  ((c3_amended svcCacheFail).2.2.2.2.1 uuid0 uuid0 "dd" formW (by decide) rfl rfl).2.1

/-- C6 amended: in every mutation the cache call is wrapped in the retry executor with 3
attempts and a delay of 5 between attempts; the notification publish is wrapped in the same
retry policy in create-question, update-status, update-fields, update-description and
delete-form, but in create-form and delete-question it is invoked exactly once with no
retry. Stated as exact trace equalities against the retry executor. -/
theorem c6_amended (s : Service) :
    (∀ f, s.repoCreateForm (some f) = none →
      (s.CreateForm (some f)).asyncCalls =
        (retrierDo 3 5 s.cacheAdd (Call.cacheAdd f.id (Payload.form f))).2 ∧
      (s.CreateForm (some f)).syncCalls =
        [Call.repoCreateForm (some f), Call.publish (Payload.form f) "form.created"]) ∧
    (∀ q fm, s.repoCreateQuestion (some q) = none → s.repoGet q.formID = Except.ok fm →
      (s.CreateQuestion (some q)).syncCalls =
        [Call.repoCreateQuestion (some q), Call.repoGet q.formID] ++
          (retrierDo 3 5 s.cacheAdd (Call.cacheAdd fm.id (Payload.form fm))).2 ∧
      (s.CreateQuestion (some q)).asyncCalls =
        (retrierDo 3 5 s.publish (Call.publish (Payload.form fm) "form.updated")).2) ∧
    (∀ fid uid c fm, uuidParse fid = some uid →
      s.repoUpdate uid "Closed" (GoVal.bool c) = none → s.repoGet uid = Except.ok fm →
      (s.UpdateStatus fid c).asyncCalls =
        (retrierDo 3 5 s.cacheAdd (Call.cacheAdd fid (Payload.form fm))).2 ∧
      (s.UpdateStatus fid c).syncCalls =
        [Call.repoUpdate uid "Closed" (GoVal.bool c), Call.repoGet uid] ++
          (retrierDo 3 5 s.publish (Call.publish (Payload.form fm) "form.created")).2) ∧
    (∀ fid vs, s.repoUpdateMany fid vs = none →
      (s.Update fid vs).asyncCalls =
        (retrierDo 3 5 s.cacheAdd (Call.cacheAdd fid (Payload.values vs))).2 ∧
      (s.Update fid vs).syncCalls =
        [Call.repoUpdateMany fid vs] ++
          (retrierDo 3 5 s.publish (Call.publish (Payload.values vs) "form.updated")).2) ∧
    (∀ fid uid d fm, uuidParse fid = some uid →
      s.repoUpdate uid "Description" (GoVal.str d) = none → s.repoGet uid = Except.ok fm →
      (s.UpdateDescription fid d).asyncCalls =
        (retrierDo 3 5 s.cacheAdd (Call.cacheAdd fid (Payload.form fm))).2 ∧
      (s.UpdateDescription fid d).syncCalls =
        [Call.repoUpdate uid "Description" (GoVal.str d), Call.repoGet uid] ++
          (retrierDo 3 5 s.publish (Call.publish (Payload.form fm) "form.updated")).2) ∧
    (∀ fid uid, uuidParse fid = some uid → s.repoDeleteForm uid = none →
      (s.DeleteForm fid).asyncCalls =
        (retrierDo 3 5 s.cacheRemove (Call.cacheRemove fid)).2 ∧
      (s.DeleteForm fid).syncCalls =
        [Call.repoDeleteForm uid] ++
          (retrierDo 3 5 s.publish (Call.publish (Payload.formID fid) "form.deleted")).2) ∧
    (∀ fid uid n fm, uuidParse fid = some uid → s.repoDeleteQuestion uid n = none →
      s.repoGet uid = Except.ok fm →
      (s.DeleteQuestion fid n).asyncCalls =
        (retrierDo 3 5 s.cacheAdd (Call.cacheAdd fid (Payload.form fm))).2 ∧
      (s.DeleteQuestion fid n).syncCalls =
        [Call.repoDeleteQuestion uid n, Call.repoGet uid,
          Call.publish (Payload.form fm) "form.updated"]) := by
  refine ⟨?_, ?_, ?_, ?_, ?_, ?_, ?_⟩
  · intro f h
    cases hp : s.publish 0 <;> simp [Service.CreateForm, h, hp]
  · intro q fm h hg
    cases hc : (retrierDo 3 5 s.cacheAdd (Call.cacheAdd fm.id (Payload.form fm))).1 <;>
      simp [Service.CreateQuestion, h, hg, hc]
  · intro fid uid c fm hu h hg
    cases hp : (retrierDo 3 5 s.publish (Call.publish (Payload.form fm) "form.created")).1 <;>
      simp [Service.UpdateStatus, hu, h, hg, hp]
  · intro fid vs h
    cases hp : (retrierDo 3 5 s.publish (Call.publish (Payload.values vs) "form.updated")).1 <;>
      simp [Service.Update, h, hp]
  · intro fid uid d fm hu h hg
    cases hp : (retrierDo 3 5 s.publish (Call.publish (Payload.form fm) "form.updated")).1 <;>
      simp [Service.UpdateDescription, hu, h, hg, hp]
  · intro fid uid hu h
    cases hp : (retrierDo 3 5 s.publish (Call.publish (Payload.formID fid) "form.deleted")).1 <;>
      simp [Service.DeleteForm, hu, h, hp]
  · intro fid uid n fm hu h hg
    cases hp : s.publish 0 <;> simp [Service.DeleteQuestion, hu, h, hg, hp]

/-- Witness for the amended C6: create-form publishes exactly once even though its publisher
fails persistently. -/
theorem c6_amended_witness :
    (svcPubFail.CreateForm (some formW)).syncCalls =
      [Call.repoCreateForm (some formW), Call.publish (Payload.form formW) "form.created"] :=
  ((c6_amended svcPubFail).1 formW rfl).2

/-- Length lemma for the processMessage-based loop: every message yields exactly one
per-message result, so the loop never stalls. -/
theorem consumer2_deliverLoop_length (ms : List (Option Event)) (q : BChan) :
    (Consumer2.deliverLoop ms q).2.length = ms.length := by
  induction ms generalizing q with
  | nil => rfl
  | cons m ms ih => simp [Consumer2.deliverLoop, ih]

/-- C8 amended: in the processMessage-based consumer implementation a decoded envelope that
finds the delivery queue full is dropped with a recorded queue-full error while the read
loop goes on to process every remaining message; in the ConsumeMessages loop of
src/pkg/consumer/consumer.go the send into a full delivery queue instead blocks the
broker-read loop and nothing is dropped. -/
theorem c8_amended (q : BChan) (e : Event) (ms : List (Option Event)) (h : q.isFull = true) :
    Consumer2.processMessage (some e) q = (q, some "output channel is full") ∧
      (Consumer2.deliverLoop (some e :: ms) q).2 =
        some "output channel is full" :: (Consumer2.deliverLoop ms q).2 ∧
      (Consumer2.deliverLoop (some e :: ms) q).2.length = ms.length + 1 ∧
      Consumer1.deliverLoop (some e :: ms) q = LoopOutcome.blockedOnSend e q ms := by
  refine ⟨?_, ?_, ?_, ?_⟩ <;>
    simp [Consumer2.processMessage, Consumer2.deliverLoop, Consumer1.deliverLoop, h,
      consumer2_deliverLoop_length]

/-- Witness for the amended C8 at a concrete full queue of capacity one. -/
theorem c8_amended_witness :
    Consumer2.processMessage (some evA) ⟨1, [evB]⟩ =
      (⟨1, [evB]⟩, some "output channel is full") :=
  (c8_amended ⟨1, [evB]⟩ evA [] (by decide)).1

end FormService
